import Mathlib

/-!
Verification of the time-arbitration core of `clock.py` (Workshop LED Clock).

The Python source is shallowly embedded:
  * lines of text are `List Char`; Python `str.strip`, `str.split(",")`,
    `str.startswith`, slicing and `int(...)` are modelled by executable
    functions below (ASCII semantics);
  * instants and `datetime` values are `Int` microseconds — a `datetime`
    is its signed number of microseconds since 1970-01-01T00:00:00 in the
    proleptic Gregorian calendar, matching `datetime`/`timedelta`'s exact
    microsecond resolution; `time.monotonic()` floats are modelled at the
    same resolution (their sub-microsecond part never reaches a`timedelta`,
    and every threshold in the program is a whole number of seconds);
  * `try: ... except: pass` blocks are modelled statement by statement: a
    statement that can raise is an `Option`, and an exception keeps every
    assignment already executed and abandons the rest;
  * the module-level mutable variables are gathered into explicit state
    structures (`FixState`, `ArbState`, `BoundaryState`) threaded through
    pure step functions;
  * the network call `query_ntp_once` is an oracle parameter: `some (t, srv)`
    means the first responding server `srv` returned UTC instant `t`, `none`
    means the whole pass over `NTP_SERVERS` failed.
-/

/-- Characters of a string literal, for writing lines of protocol text. -/
def chars (s : String) : List Char := s.data

/-- ASCII whitespace recognised by Python `str.strip`. -/
def isSpaceCh (c : Char) : Bool :=
  c = ' ' || c = '\t' || c = '\n' || c = '\r' || c = '\x0b' || c = '\x0c'

/-- Python `str.rstrip()` on ASCII text. -/
def pyRstrip (l : List Char) : List Char :=
  (l.reverse.dropWhile isSpaceCh).reverse

/-- Python `str.strip()` on ASCII text. -/
def pyStrip (l : List Char) : List Char :=
  pyRstrip (l.dropWhile isSpaceCh)

/-- Python `str.startswith(pat)`. -/
def startsWithL : List Char → List Char → Bool
  | [], _ => true
  | _ :: _, [] => false
  | p :: ps, c :: cs => p = c && startsWithL ps cs

/-- Python `str.split(",")`: split on every comma, keeping empty chunks. -/
def pySplit : List Char → List (List Char)
  | [] => [[]]
  | c :: rest =>
    if c = ',' then [] :: pySplit rest
    else
      match pySplit rest with
      | [] => [[c]]
      | h :: t => (c :: h) :: t

/-- Python slice `s[a:b]` for `0 ≤ a ≤ b` (as used with literal indices). -/
def pySlice (l : List Char) (a b : Nat) : List Char :=
  (l.drop a).take (b - a)

/-- ASCII decimal digit test. -/
def isDigitCh (c : Char) : Bool := '0' ≤ c && c ≤ '9'

/-- All characters are ASCII digits. -/
def allDigits (l : List Char) : Bool := l.all isDigitCh

/-- Python `str.isdigit()` (ASCII): nonempty and all digits. -/
def isdigitL (l : List Char) : Bool := !l.isEmpty && allDigits l

/-- Numeric value of a digit string. -/
def digitsVal (l : List Char) : Int :=
  l.foldl (fun a c => a * 10 + ((c.toNat : Int) - 48)) 0

/-- Python `int(s)` on ASCII text: strip whitespace, optional sign, at
least one digit; `none` models a raised `ValueError`.  (Underscore digit
grouping and non-ASCII digits accepted by CPython are not modelled.) -/
def pyInt (l : List Char) : Option Int :=
  match pyStrip l with
  | '+' :: rest => if isdigitL rest then some (digitsVal rest) else none
  | '-' :: rest => if isdigitL rest then some (-(digitsVal rest)) else none
  | t => if isdigitL t then some (digitsVal t) else none

/-- `int(f) if f else 0`: Python truthiness of a string is nonemptiness. -/
def pyIntOrZero (l : List Char) : Option Int :=
  if l.isEmpty then some 0 else pyInt l

/-- Gregorian leap year (as used by `datetime`). -/
def isLeapYear (y : Int) : Bool :=
  decide (y % 4 = 0) && (decide (y % 100 ≠ 0) || decide (y % 400 = 0))

/-- Length of a month, `datetime` calendar. -/
def daysInMonth (y m : Int) : Int :=
  if m = 2 then (if isLeapYear y then 29 else 28)
  else if m = 4 ∨ m = 6 ∨ m = 9 ∨ m = 11 then 30
  else 31

/-- Days from 1970-01-01 to `y-m-d` in the proleptic Gregorian calendar
(only used after validity checks, so `1 ≤ y`). -/
def daysFromCivil (y m d : Int) : Int :=
  let y2 := if m ≤ 2 then y - 1 else y
  let era := y2 / 400
  let yoe := y2 - era * 400
  let mp := if 2 < m then m - 3 else m + 9
  let doy := (153 * mp + 2) / 5 + d - 1
  let doe := yoe * 365 + yoe / 4 - yoe / 100 + doy
  era * 146097 + doe - 719468

/-- Microseconds since the epoch of a civil date-time. -/
def dtUs (y m d h mi s : Int) : Int :=
  (daysFromCivil y m d * 86400 + h * 3600 + mi * 60 + s) * 1000000

/-- One second of model time. -/
def oneSecond : Int := 1000000

/-- `datetime.datetime(y, m, d, h, mi, s)`: `none` models a raised
`ValueError` on out-of-range components. -/
def mkDatetime (y m d h mi s : Int) : Option Int :=
  if 1 ≤ y ∧ y ≤ 9999 ∧ 1 ≤ m ∧ m ≤ 12 ∧ 1 ≤ d ∧ d ≤ daysInMonth y m
      ∧ 0 ≤ h ∧ h < 24 ∧ 0 ≤ mi ∧ mi < 60 ∧ 0 ≤ s ∧ s < 60 then
    some (dtUs y m d h mi s)
  else none

/-- Seconds after midnight of the instant `t` (`datetime` components
ignore the sub-second part). -/
def sodOf (t : Int) : Int := (Int.fdiv t oneSecond).emod 86400

/-- `datetime.hour`. -/
def hourOf (t : Int) : Int := sodOf t / 3600

/-- `datetime.minute`. -/
def minuteOf (t : Int) : Int := sodOf t % 3600 / 60

/-- `datetime.second`. -/
def secondOf (t : Int) : Int := sodOf t % 60

/-- Configuration constant `UTC_OFFSET_HOURS = -5`. -/
def UTC_OFFSET_HOURS : Int := -5

/-- `datetime.timedelta(hours=UTC_OFFSET_HOURS)` in model time. -/
def utcOffset : Int := UTC_OFFSET_HOURS * 3600 * oneSecond

/-- The module-level satellite-receiver state of `clock.py`
(`gps_fix_dt`, `fix_quality`, `satellites_used`, `fix_type`, `best_snr`,
`last_gps_receive`). -/
structure FixState where
  gps_fix_dt : Option Int
  fix_quality : Int
  satellites_used : Int
  fix_type : String
  best_snr : Int
  last_gps_receive : Option Int
deriving DecidableEq

/-- Initial values of the fix variables at module load. -/
def initFixState : FixState :=
  { gps_fix_dt := none
    fix_quality := 0
    satellites_used := 0
    fix_type := "NO FIX"
    best_snr := 0
    last_gps_receive := none }

/-- `$GPRMC` / `$GNRMC` branch of `parse_nmea_line` (lines 123-140).
All fallible statements precede the first assignment, so an exception
leaves the state unchanged. -/
def parseRMC (s : FixState) (now : Int) (parts : List (List Char)) : FixState :=
  match parts.get? 2, parts.get? 1, parts.get? 9 with
  | some status, some rawTime, some rawDate =>
    if status = chars ("A") ∧ rawTime ≠ [] ∧ rawDate ≠ [] then
      match pyInt (pySlice rawTime 0 2), pyInt (pySlice rawTime 2 4),
            pyInt (pySlice rawTime 4 6), pyInt (pySlice rawDate 0 2),
            pyInt (pySlice rawDate 2 4), pyInt (pySlice rawDate 4 6) with
      | some hh, some mm, some ss, some dd, some mo, some yy =>
        match mkDatetime (yy + 2000) mo dd hh mm ss with
        | some utc =>
          let s1 := { s with gps_fix_dt := some (utc + utcOffset) }
          if 0 < s1.fix_quality then { s1 with last_gps_receive := some now }
          else s1
        | none => s
      | _, _, _, _, _, _ => s
    else s
  | _, _, _ => s

/-- `$GPGGA` branch of `parse_nmea_line` (lines 142-149).  A failure while
decoding field 7 keeps the just-assigned `fix_quality` (the `except: pass`
keeps completed assignments) and skips the staleness refresh. -/
def parseGGA (s : FixState) (now : Int) (parts : List (List Char)) : FixState :=
  match parts.get? 6 with
  | none => s
  | some rawQ =>
    match pyIntOrZero rawQ with
    | none => s
    | some q =>
      let s1 := { s with fix_quality := q }
      match parts.get? 7 with
      | none => s1
      | some rawSats =>
        match pyIntOrZero rawSats with
        | none => s1
        | some n =>
          let s2 := { s1 with satellites_used := n }
          if 0 < q then { s2 with last_gps_receive := some now } else s2

/-- `$GPGSA` branch of `parse_nmea_line` (lines 151-158). -/
def parseGSA (s : FixState) (now : Int) (parts : List (List Char)) : FixState :=
  match parts.get? 2 with
  | none => s
  | some mode =>
    let ft := if mode = chars ("1") then "NO FIX"
              else if mode = chars ("2") then "2D FIX"
              else if mode = chars ("3") then "3D FIX"
              else "NO FIX"
    let s1 := { s with fix_type := ft }
    if 0 < s.fix_quality then { s1 with last_gps_receive := some now } else s1

/-- One slot of the `$GPGSV` loop body (lines 163-167):
`if len(parts) > idx and parts[idx].isdigit(): ...`. -/
def gsvStep (parts : List (List Char)) (b : Int) (idx : Nat) : Int :=
  match parts.get? idx with
  | some f => if isdigitL f then (if b < digitsVal f then digitsVal f else b) else b
  | none => b

/-- `$GPGSV` branch of `parse_nmea_line` (lines 160-170). -/
def parseGSV (s : FixState) (now : Int) (parts : List (List Char)) : FixState :=
  let b := [7, 11, 15, 19].foldl (gsvStep parts) s.best_snr
  let s1 := { s with best_snr := b }
  if 0 < s.fix_quality then { s1 with last_gps_receive := some now } else s1

/-- `parse_nmea_line` (lines 117-170): strip, dispatch on the tag, update
the fix state.  Total by construction — every Python exception path is an
explicit early return, so no input can raise. -/
def parse_nmea_line (s : FixState) (now : Int) (line0 : List Char) : FixState :=
  let line := pyStrip line0
  if line = [] then s
  else if startsWithL (chars ("$GPRMC")) line || startsWithL (chars ("$GNRMC")) line then
    parseRMC s now (pySplit line)
  else if startsWithL (chars ("$GPGGA")) line then parseGGA s now (pySplit line)
  else if startsWithL (chars ("$GPGSA")) line then parseGSA s now (pySplit line)
  else if startsWithL (chars ("$GPGSV")) line then parseGSV s now (pySplit line)
  else s

/-- Configuration constant `NTP_CHECK_INTERVAL = 30.0` seconds. -/
def NTP_CHECK_INTERVAL : Int := 30 * oneSecond

/-- `timedelta(seconds=1.5)`, the snap threshold of line 269. -/
def snapThreshold : Int := 1500000

/-- The `1e9` staleness sentinel of line 262, in model time. -/
def staleSentinel : Int := 1000000000 * oneSecond

/-- The module-level arbiter state of `clock.py` (`display_time`,
`last_monotonic`, `last_ntp_query`, `last_ntp_server_used`,
`last_time_source`). -/
structure ArbState where
  display_time : Option Int
  last_monotonic : Int
  last_ntp_query : Int
  last_ntp_server_used : Option String
  last_time_source : String
deriving DecidableEq

/-- Startup values (lines 51-56): `display_time` is seeded from
`datetime.datetime.now()` and `last_monotonic` from `time.monotonic()`. -/
def initArbState (sysStart mono0 : Int) : ArbState :=
  { display_time := some sysStart
    last_monotonic := mono0
    last_ntp_query := 0
    last_ntp_server_used := none
    last_time_source := "Startup" }

/-- Line 262: `gps_age = (time.monotonic() - last_gps_receive) if
last_gps_receive else 1e9`.  Python truthiness: the sentinel is used both
when `last_gps_receive` is `None` and when it equals `0.0`. -/
def gpsAgeOf (fix : FixState) (t2 : Int) : Int :=
  match fix.last_gps_receive with
  | some r => if r = 0 then staleSentinel else t2 - r
  | none => staleSentinel

/-- Line 263: `have_gps = gps_fix_dt is not None and fix_quality > 0 and
gps_age < 10.0`. -/
def haveGpsOf (fix : FixState) (t2 : Int) : Bool :=
  fix.gps_fix_dt.isSome && decide (0 < fix.fix_quality) &&
    decide (gpsAgeOf fix t2 < 10 * oneSecond)

/-- Line 273: the f-string source label of the GPS branch. -/
def gpsLabel (fix : FixState) : String :=
  "GPS: " ++ fix.fix_type ++ " | Sats:" ++ toString fix.satellites_used ++
    " | SNR:" ++ toString fix.best_snr ++ " dB"

/-- The failure label of `query_ntp_once` and of the offline branch. -/
def offlineLabel : String := "System time (offline)"

/-- The success label of `query_ntp_once`: `f"NTP: {s}"`. -/
def ntpLabelOf (srv : String) : String := "NTP: " ++ srv

/-- One pass of the time-update section of the main loop (lines 257-289).
`t1`, `t2`, `t3` are the three successive `time.monotonic()` readings of
lines 258, 262 and 275; `ntp` is the outcome of `query_ntp_once()` if it
is invoked (`some (utcInstant, server)` on success, `none` when every
server fails); `sysNow` is `datetime.datetime.now()` of line 284.  The
returned `Bool` records whether this tick invoked `query_ntp_once`.
`none` models the uncaught `TypeError` of `None + timedelta` at line 289
(resp. line 269); both are unreachable from the startup state, which
defines `display_time`. -/
def timeUpdateStep (fix : FixState) (a : ArbState) (t1 t2 t3 : Int)
    (ntp : Option (Int × String)) (sysNow : Int) : Option (ArbState × Bool) :=
  let elapsed := t1 - a.last_monotonic
  if haveGpsOf fix t2 then
    match fix.gps_fix_dt with
    | none => none
    | some g =>
      match a.display_time with
      | none =>
        some ({ display_time := some g
                last_monotonic := t1
                last_ntp_query := a.last_ntp_query
                last_ntp_server_used := a.last_ntp_server_used
                last_time_source := gpsLabel fix }, false)
      | some d =>
        if d + snapThreshold < g then
          some ({ display_time := some g
                  last_monotonic := t1
                  last_ntp_query := a.last_ntp_query
                  last_ntp_server_used := a.last_ntp_server_used
                  last_time_source := gpsLabel fix }, false)
        else
          some ({ display_time := some (d + elapsed)
                  last_monotonic := t1
                  last_ntp_query := a.last_ntp_query
                  last_ntp_server_used := a.last_ntp_server_used
                  last_time_source := gpsLabel fix }, false)
  else
    if decide (NTP_CHECK_INTERVAL < t3 - a.last_ntp_query) ||
        a.last_ntp_server_used.isNone then
      match ntp with
      | some (ndt, srv) =>
        some ({ display_time := some (ndt + utcOffset)
                last_monotonic := t1
                last_ntp_query := t3
                last_ntp_server_used := some srv
                last_time_source := ntpLabelOf srv }, true)
      | none =>
        match a.display_time with
        | none =>
          some ({ display_time := some sysNow
                  last_monotonic := t1
                  last_ntp_query := t3
                  last_ntp_server_used := a.last_ntp_server_used
                  last_time_source := offlineLabel }, true)
        | some d =>
          some ({ display_time := some (d + elapsed)
                  last_monotonic := t1
                  last_ntp_query := t3
                  last_ntp_server_used := a.last_ntp_server_used
                  last_time_source := offlineLabel }, true)
    else
      match a.display_time with
      | none => none
      | some d =>
        some ({ display_time := some (d + elapsed)
                last_monotonic := t1
                last_ntp_query := a.last_ntp_query
                last_ntp_server_used := a.last_ntp_server_used
                last_time_source := a.last_time_source }, false)

/-- The module-level chime/alarm state of `clock.py` (`last_chime_hour`,
`last_chime_half`, `last_alarm_triggered`). -/
structure BoundaryState where
  last_chime_hour : Option Int
  last_chime_half : Option Int
  last_alarm_triggered : Option (Int × Int)
deriving DecidableEq

/-- Startup values (lines 59-68). -/
def initBoundaryState : BoundaryState :=
  { last_chime_hour := none, last_chime_half := none, last_alarm_triggered := none }

/-- Result of one pass over the chime/alarm section: the new state and
which discrete events fired. -/
structure BoundaryOut where
  st : BoundaryState
  hourChimed : Bool
  halfChimed : Bool
  alarmFired : Bool
deriving DecidableEq

/-- The chime/alarm section of the main loop (lines 314-334), evaluated
at the tick's displayed time `t`.  `chimeHourLoaded`/`chimeHalfLoaded`
model the truthiness of the sound objects guarding lines 317/320; the
alarm event (print and marker update, lines 330-334) is independent of
`alarm_sound`.  Note that `last_alarm_triggered` is assigned but never
reset anywhere in the program. -/
def boundaryStep (chimeHourLoaded chimeHalfLoaded : Bool)
    (alarmHour alarmMinute : Option Int) (b : BoundaryState) (t : Int) :
    BoundaryOut :=
  let minute := minuteOf t
  let hour := hourOf t
  let fireHour := chimeHourLoaded && decide (b.last_chime_hour ≠ some hour) &&
    decide (minute = 0)
  let lch1 := if fireHour then some hour else b.last_chime_hour
  let fireHalf := chimeHalfLoaded && decide (b.last_chime_half ≠ some hour) &&
    decide (minute = 30)
  let lchh1 := if fireHalf then some hour else b.last_chime_half
  let lch2 := if minute ≠ 0 ∧ minute ≠ 30 then none else lch1
  let lchh2 := if minute ≠ 0 ∧ minute ≠ 30 then none else lchh1
  let fireAlarm :=
    match alarmHour, alarmMinute with
    | some ah, some am =>
      decide (hour = ah) && decide (minute = am) && decide (secondOf t = 0) &&
        decide (b.last_alarm_triggered ≠ some (hour, minute))
    | _, _ => false
  let lat1 := if fireAlarm then some (hour, minute) else b.last_alarm_triggered
  { st := { last_chime_hour := lch2
            last_chime_half := lchh2
            last_alarm_triggered := lat1 }
    hourChimed := fireHour
    halfChimed := fireHalf
    alarmFired := fireAlarm }

/-- Tag test for the position/time branch (line 123), on the stripped line. -/
def isRMCtag (line : List Char) : Bool :=
  startsWithL (chars ("$GPRMC")) (pyStrip line) ||
    startsWithL (chars ("$GNRMC")) (pyStrip line)

/-- Tag test for the fix-quality branch (line 142). -/
def isGGAtag (line : List Char) : Bool :=
  startsWithL (chars ("$GPGGA")) (pyStrip line)

/-- Tag test for the DOP/fix-type branch (line 151). -/
def isGSAtag (line : List Char) : Bool :=
  startsWithL (chars ("$GPGSA")) (pyStrip line)

/-- Tag test for the satellites-in-view branch (line 160). -/
def isGSVtag (line : List Char) : Bool :=
  startsWithL (chars ("$GPGSV")) (pyStrip line)

/-- The signal-strength values present in a split satellites-in-view
sentence: the numeric fields at offsets 7, 11, 15 and 19. -/
def gsvValues (parts : List (List Char)) : List Int :=
  [7, 11, 15, 19].filterMap (fun i =>
    match parts.get? i with
    | some f => if isdigitL f then some (digitsVal f) else none
    | none => none)

/-- The position/time decode of lines 126-137 succeeds on these split
fields: field 2 is `A`, fields 1 and 9 are nonempty, every two-character
slice converts to an integer, and the resulting calendar date-time is
valid.  A `$GPRMC`/`$GNRMC` line validates (and may update) `gps_fix_dt`
exactly when this holds. -/
def rmcValidated (parts : List (List Char)) : Bool :=
  match parts.get? 2, parts.get? 1, parts.get? 9 with
  | some status, some rawTime, some rawDate =>
    if status = chars ("A") ∧ rawTime ≠ [] ∧ rawDate ≠ [] then
      match pyInt (pySlice rawTime 0 2), pyInt (pySlice rawTime 2 4),
            pyInt (pySlice rawTime 4 6), pyInt (pySlice rawDate 0 2),
            pyInt (pySlice rawDate 2 4), pyInt (pySlice rawDate 4 6) with
      | some hh, some mm, some ss, some dd, some mo, some yy =>
        (mkDatetime (yy + 2000) mo dd hh mm ss).isSome
      | _, _, _, _, _, _ => false
    else false
  | _, _, _ => false

/-- The fix-quality field of a `$GPGGA` line validates (line 145): field
6 is present and is empty or numeric. -/
def ggaQualityValidated (parts : List (List Char)) : Bool :=
  match parts.get? 6 with
  | some rawQ => (pyIntOrZero rawQ).isSome
  | none => false

/-- The satellite-count field of a `$GPGGA` line validates (line 146):
the quality field before it decoded, and field 7 is present and is empty
or numeric. -/
def ggaSatsValidated (parts : List (List Char)) : Bool :=
  ggaQualityValidated parts &&
    (match parts.get? 7 with
     | some rawSats => (pyIntOrZero rawSats).isSome
     | none => false)

/-- The mode field of a `$GPGSA` line validates (line 154): field 2 is
present (any value maps to a fix-type label via the dictionary default). -/
def gsaValidated (parts : List (List Char)) : Bool :=
  (parts.get? 2).isSome

/-- Feeding a list of lines through the parser in order (the per-tick
read loop of lines 249-254, over a whole run). -/
def parseRun (s : FixState) (now : Int) (lines : List (List Char)) : FixState :=
  lines.foldl (fun st l => parse_nmea_line st now l) s

/-- The sentinel-free satellite age written in the specification:
`gpsAge = now_monotonic - lastReceiveInstant`, with the large sentinel
only "when lastReceiveInstant is absent".  (Claim-side definition, for
comparison with `gpsAgeOf`, which follows the code.) -/
def gpsAgeClaim (fix : FixState) (t2 : Int) : Int :=
  match fix.last_gps_receive with
  | some r => t2 - r
  | none => staleSentinel

/-- The GPS-trust decision exactly as claim C2 words it, built on
`gpsAgeClaim`.  (Claim-side definition, for comparison with `haveGpsOf`.) -/
def haveGpsClaim (fix : FixState) (t2 : Int) : Bool :=
  fix.gps_fix_dt.isSome && decide (0 < fix.fix_quality) &&
    decide (gpsAgeClaim fix t2 < 10 * oneSecond)

/-- A fix state whose last receive instant is the monotonic instant `0.0`:
Python's `if last_gps_receive` treats it as absent. -/
def fixZeroRecv : FixState :=
  { gps_fix_dt := some 0
    fix_quality := 1
    satellites_used := 3
    fix_type := "3D FIX"
    best_snr := 20
    last_gps_receive := some 0 }

/-- A locked fix whose satellite time is 2 s ahead of a display of 0. -/
def fixSnapW : FixState :=
  { gps_fix_dt := some (2 * oneSecond)
    fix_quality := 1
    satellites_used := 4
    fix_type := "3D FIX"
    best_snr := 30
    last_gps_receive := some 100 }

/-- A locked fix whose satellite time is 0.5 s ahead of a display of 0. -/
def fixGlideW : FixState :=
  { fixSnapW with gps_fix_dt := some 500000 }

/-- An arbiter state displaying 0 with all throttle state at startup. -/
def arbW : ArbState :=
  { display_time := some 0
    last_monotonic := 0
    last_ntp_query := 0
    last_ntp_server_used := none
    last_time_source := "Startup" }

/-- An arbiter state displaying a large (far-future) wall-clock value. -/
def arbBack : ArbState :=
  { arbW with display_time := some 1000000000000 }

/-- The valid class-A sentence of the end-to-end scenario. -/
def rmcLineA : List Char := chars ("$GPRMC,120000,A,,,,,,,010124,,,")

/-- A fix-quality sentence reporting quality 1 and 5 satellites. -/
def ggaLineA : List Char := chars ("$GPGGA,,,,,,1,05")

/-- The fix state after feeding only the class-A sentence from startup
(the run of claim C4 as stated). -/
def fixC4 : FixState :=
  parse_nmea_line initFixState (100 * oneSecond) rmcLineA

/-- The fix state after feeding the class-A sentence and then the
fix-quality sentence from startup. -/
def fixC4b : FixState :=
  parse_nmea_line fixC4 (100 * oneSecond) ggaLineA

/-- The throttle-scenario start state: display seeded, no query yet. -/
def aThr : ArbState :=
  initArbState 0 (100 * oneSecond)

/-- `aThr` after a tick at monotonic 100 s whose query pass failed. -/
def aThr1 : ArbState :=
  { display_time := some 0
    last_monotonic := 100 * oneSecond
    last_ntp_query := 100 * oneSecond
    last_ntp_server_used := none
    last_time_source := offlineLabel }

/-- `aThr1` after a second failing tick at monotonic 105 s. -/
def aThr2 : ArbState :=
  { aThr1 with last_monotonic := 105 * oneSecond
               last_ntp_query := 105 * oneSecond
               display_time := some (5 * oneSecond) }

/-- The boundary outcome at day-one 07:00:00 with alarm set to 07:00. -/
def c7run1 : BoundaryOut :=
  boundaryStep true true (some 7) (some 0) initBoundaryState (dtUs 2024 1 1 7 0 0)

/-- The boundary outcome one minute later (07:01:00), which re-arms the
chime gates but touches no alarm state. -/
def c7run2 : BoundaryOut :=
  boundaryStep true true (some 7) (some 0) c7run1.st (dtUs 2024 1 1 7 1 0)

/-- The boundary outcome at day-two 07:00:00. -/
def c7run3 : BoundaryOut :=
  boundaryStep true true (some 7) (some 0) c7run2.st (dtUs 2024 1 2 7 0 0)

/-! ## Helper lemmas about the string primitives -/

lemma pySplit_ne_nil (l : List Char) : pySplit l ≠ [] := by
  induction l with
  | nil => simp [pySplit]
  | cons c rest ih =>
    unfold pySplit
    split
    · simp
    · split
      · simp
      · simp

lemma pySplit_cons (c : Char) (rest : List Char) :
    pySplit (c :: rest) =
      if c = ',' then [] :: pySplit rest
      else
        match pySplit rest with
        | [] => [[c]]
        | h :: t => (c :: h) :: t := rfl

lemma pySplit_append (x t : List Char) (hx : ∀ c ∈ x, c ≠ ',') :
    pySplit (x ++ t) = (x ++ (pySplit t).head!) :: (pySplit t).tail := by
  induction x with
  | nil =>
    simpa using (List.cons_head!_tail (pySplit_ne_nil t)).symm
  | cons c x' ih =>
    have hc : ¬(c = ',') := hx c (List.mem_cons_self c x')
    have ih' := ih (fun a ha => hx a (List.mem_cons_of_mem _ ha))
    rw [List.cons_append, pySplit_cons, if_neg hc, ih']
    simp [List.cons_append]

lemma startsWithL_ex (p l : List Char) (h : startsWithL p l = true) :
    ∃ r, l = p ++ r := by
  induction p generalizing l with
  | nil => exact ⟨l, rfl⟩
  | cons a ps ih =>
    cases l with
    | nil => simp [startsWithL] at h
    | cons c cs =>
      simp only [startsWithL, Bool.and_eq_true, decide_eq_true_eq] at h
      obtain ⟨rfl, h2⟩ := h
      obtain ⟨r, rfl⟩ := ih cs h2
      exact ⟨r, rfl⟩

lemma pyRstrip_append_last (x0 : List Char) (d : Char) (r : List Char)
    (hd : isSpaceCh d = false) :
    pyRstrip ((x0 ++ [d]) ++ r) = (x0 ++ [d]) ++ pyRstrip r := by
  unfold pyRstrip
  rw [List.reverse_append, List.reverse_append, List.reverse_singleton,
    List.singleton_append, List.dropWhile_append]
  by_cases hre : (List.dropWhile isSpaceCh r.reverse).isEmpty
  · rw [if_pos hre]
    rw [List.dropWhile_cons, hd]
    have h0 : List.dropWhile isSpaceCh r.reverse = [] := by
      simpa [List.isEmpty_iff] using hre
    rw [h0]
    simp
  · rw [if_neg hre]
    rw [List.reverse_append]
    simp

lemma pyStrip_tag_append (c : Char) (x0 : List Char) (d : Char) (r : List Char)
    (hc : isSpaceCh c = false) (hd : isSpaceCh d = false) :
    pyStrip ((c :: x0 ++ [d]) ++ r) = (c :: x0 ++ [d]) ++ pyRstrip r := by
  unfold pyStrip
  have h1 : List.dropWhile isSpaceCh ((c :: x0 ++ [d]) ++ r) = (c :: x0 ++ [d]) ++ r := by
    rw [List.cons_append, List.cons_append, List.dropWhile_cons, hc]
    simp
  rw [h1]
  have h2 := pyRstrip_append_last (c :: x0) d r hd
  simpa [List.cons_append] using h2

/-! ## Frame lemmas for the parser branches -/

lemma parseRMC_frame (s : FixState) (now : Int) (parts : List (List Char)) :
    (parseRMC s now parts).fix_quality = s.fix_quality ∧
    (parseRMC s now parts).satellites_used = s.satellites_used ∧
    (parseRMC s now parts).fix_type = s.fix_type ∧
    (parseRMC s now parts).best_snr = s.best_snr ∧
    ((parseRMC s now parts).last_gps_receive = s.last_gps_receive ∨
      (0 < (parseRMC s now parts).fix_quality ∧
        (parseRMC s now parts).last_gps_receive = some now)) := by
  unfold parseRMC
  repeat' split
  all_goals try simp_all
  all_goals (split <;> simp_all)

lemma parseGGA_frame (s : FixState) (now : Int) (parts : List (List Char)) :
    (parseGGA s now parts).gps_fix_dt = s.gps_fix_dt ∧
    (parseGGA s now parts).fix_type = s.fix_type ∧
    (parseGGA s now parts).best_snr = s.best_snr ∧
    ((parseGGA s now parts).last_gps_receive = s.last_gps_receive ∨
      (0 < (parseGGA s now parts).fix_quality ∧
        (parseGGA s now parts).last_gps_receive = some now)) := by
  unfold parseGGA
  repeat' split
  all_goals simp_all

lemma parseGSA_frame (s : FixState) (now : Int) (parts : List (List Char)) :
    (parseGSA s now parts).gps_fix_dt = s.gps_fix_dt ∧
    (parseGSA s now parts).fix_quality = s.fix_quality ∧
    (parseGSA s now parts).satellites_used = s.satellites_used ∧
    (parseGSA s now parts).best_snr = s.best_snr ∧
    ((parseGSA s now parts).last_gps_receive = s.last_gps_receive ∨
      (0 < (parseGSA s now parts).fix_quality ∧
        (parseGSA s now parts).last_gps_receive = some now)) := by
  unfold parseGSA
  repeat' split
  all_goals simp_all

lemma parseGSV_frame (s : FixState) (now : Int) (parts : List (List Char)) :
    (parseGSV s now parts).gps_fix_dt = s.gps_fix_dt ∧
    (parseGSV s now parts).fix_quality = s.fix_quality ∧
    (parseGSV s now parts).satellites_used = s.satellites_used ∧
    (parseGSV s now parts).fix_type = s.fix_type ∧
    ((parseGSV s now parts).last_gps_receive = s.last_gps_receive ∨
      (0 < (parseGSV s now parts).fix_quality ∧
        (parseGSV s now parts).last_gps_receive = some now)) := by
  unfold parseGSV
  repeat' split
  all_goals simp_all

lemma parseGSV_best (s : FixState) (now : Int) (parts : List (List Char)) :
    (parseGSV s now parts).best_snr =
      [7, 11, 15, 19].foldl (gsvStep parts) s.best_snr := by
  unfold parseGSV
  split <;> rfl

/-! ## Dispatch lemmas for `parse_nmea_line` -/

lemma parse_branch_info (s : FixState) (now : Int) (line : List Char) :
    parse_nmea_line s now line = s ∨
    (isRMCtag line = true ∧
      parse_nmea_line s now line = parseRMC s now (pySplit (pyStrip line))) ∨
    (isGGAtag line = true ∧
      parse_nmea_line s now line = parseGGA s now (pySplit (pyStrip line))) ∨
    (isGSAtag line = true ∧
      parse_nmea_line s now line = parseGSA s now (pySplit (pyStrip line))) ∨
    (isGSVtag line = true ∧
      parse_nmea_line s now line = parseGSV s now (pySplit (pyStrip line))) := by
  simp only [parse_nmea_line]
  split
  · exact Or.inl rfl
  · split
    · next h => exact Or.inr (Or.inl ⟨by simpa [isRMCtag] using h, rfl⟩)
    · split
      · next h => exact Or.inr (Or.inr (Or.inl ⟨by simpa [isGGAtag] using h, rfl⟩))
      · split
        · next h =>
            exact Or.inr (Or.inr (Or.inr (Or.inl ⟨by simpa [isGSAtag] using h, rfl⟩)))
        · split
          · next h =>
              exact Or.inr (Or.inr (Or.inr (Or.inr ⟨by simpa [isGSVtag] using h, rfl⟩)))
          · exact Or.inl rfl

lemma isGSVtag_excludes (line : List Char) (h : isGSVtag line = true) :
    isRMCtag line = false ∧ isGGAtag line = false ∧ isGSAtag line = false ∧
      pyStrip line ≠ [] := by
  unfold isGSVtag at h
  obtain ⟨r, hr⟩ := startsWithL_ex _ _ h
  unfold isRMCtag isGGAtag isGSAtag
  rw [hr]
  exact ⟨rfl, rfl, rfl, List.append_ne_nil_of_left_ne_nil (by decide) r⟩

lemma parse_of_gsv (s : FixState) (now : Int) (line : List Char)
    (h : isGSVtag line = true) :
    parse_nmea_line s now line = parseGSV s now (pySplit (pyStrip line)) := by
  obtain ⟨hrmc, hgga, hgsa, hne⟩ := isGSVtag_excludes line h
  simp only [isRMCtag] at hrmc
  simp only [isGGAtag] at hgga
  simp only [isGSAtag] at hgsa
  simp only [isGSVtag] at h
  simp only [parse_nmea_line]
  rw [if_neg hne, hrmc, hgga, hgsa, h]
  simp

/-! ## The satellites-in-view fold -/

lemma gsvStep_le (parts : List (List Char)) (b : Int) (i : Nat) :
    b ≤ gsvStep parts b i := by
  unfold gsvStep
  repeat' split
  all_goals omega

lemma foldl_gsvStep_le (parts : List (List Char)) (idxs : List Nat) (b : Int) :
    b ≤ idxs.foldl (gsvStep parts) b := by
  induction idxs generalizing b with
  | nil => exact le_refl b
  | cons i rest ih =>
    exact le_trans (gsvStep_le parts b i) (ih (gsvStep parts b i))

lemma foldl_gsvStep_eq_max (parts : List (List Char)) (idxs : List Nat) (b : Int) :
    idxs.foldl (gsvStep parts) b =
      (idxs.filterMap (fun i =>
        match parts.get? i with
        | some f => if isdigitL f then some (digitsVal f) else none
        | none => none)).foldl max b := by
  induction idxs generalizing b with
  | nil => rfl
  | cons i rest ih =>
    simp only [List.foldl_cons, List.filterMap_cons]
    cases hg : parts.get? i with
    | none => simp only [gsvStep, hg]; exact ih b
    | some f =>
      by_cases hd : isdigitL f
      · have hstep : gsvStep parts b i = max b (digitsVal f) := by
          simp only [gsvStep, hg]
          rw [if_pos hd]
          rcases le_or_lt (digitsVal f) b with h | h
          · rw [if_neg (not_lt.mpr h), max_eq_left h]
          · rw [if_pos h, max_eq_right (le_of_lt h)]
        simp only [hd, if_true, hstep, List.foldl_cons]
        exact ih (max b (digitsVal f))
      · have hstep : gsvStep parts b i = b := by
          simp only [gsvStep, hg]
          rw [if_neg hd]
        simp only [hd, if_false, hstep]
        exact ih b

lemma parse_best_snr_le (s : FixState) (now : Int) (line : List Char) :
    s.best_snr ≤ (parse_nmea_line s now line).best_snr := by
  rcases parse_branch_info s now line with h | ⟨-, h⟩ | ⟨-, h⟩ | ⟨-, h⟩ | ⟨-, h⟩
  · rw [h]
  · rw [h]
    exact le_of_eq (parseRMC_frame s now _).2.2.2.1.symm
  · rw [h]
    exact le_of_eq (parseGGA_frame s now _).2.2.1.symm
  · rw [h]
    exact le_of_eq (parseGSA_frame s now _).2.2.2.1.symm
  · rw [h, parseGSV_best]
    exact foldl_gsvStep_le _ _ _

lemma parseRun_best_snr_le (s : FixState) (now : Int) (lines : List (List Char)) :
    s.best_snr ≤ (parseRun s now lines).best_snr := by
  induction lines generalizing s with
  | nil => exact le_refl _
  | cons l rest ih =>
    exact le_trans (parse_best_snr_le s now l) (ih (parse_nmea_line s now l))

/-! ## Within-branch validation lemmas -/

lemma foldl_max_lt_of_ne (b : Int) (vs : List Int) (h : vs.foldl max b ≠ b) :
    ∃ v ∈ vs, b < v := by
  induction vs generalizing b with
  | nil => exact absurd rfl h
  | cons v vs ih =>
    rcases le_or_lt v b with hv | hv
    · rw [List.foldl_cons, max_eq_left hv] at h
      obtain ⟨w, hw, hbw⟩ := ih b h
      exact ⟨w, List.mem_cons_of_mem _ hw, hbw⟩
    · exact ⟨v, List.mem_cons_self v vs, hv⟩

lemma parseRMC_validated_of_changed (s : FixState) (now : Int)
    (parts : List (List Char))
    (h : (parseRMC s now parts).gps_fix_dt ≠ s.gps_fix_dt) :
    rmcValidated parts = true := by
  unfold parseRMC at h
  repeat' split at h
  all_goals simp_all [rmcValidated]

lemma parseGGA_quality_validated_of_changed (s : FixState) (now : Int)
    (parts : List (List Char))
    (h : (parseGGA s now parts).fix_quality ≠ s.fix_quality) :
    ggaQualityValidated parts = true := by
  unfold parseGGA at h
  repeat' split at h
  all_goals simp_all [ggaQualityValidated]

lemma parseGGA_sats_validated_of_changed (s : FixState) (now : Int)
    (parts : List (List Char))
    (h : (parseGGA s now parts).satellites_used ≠ s.satellites_used) :
    ggaSatsValidated parts = true := by
  unfold parseGGA at h
  repeat' split at h
  all_goals simp_all [ggaSatsValidated, ggaQualityValidated]

lemma parseGSA_validated_of_changed (s : FixState) (now : Int)
    (parts : List (List Char))
    (h : (parseGSA s now parts).fix_type ≠ s.fix_type) :
    gsaValidated parts = true := by
  unfold parseGSA at h
  repeat' split at h
  all_goals simp_all [gsaValidated]

lemma parseGSV_lt_of_changed (s : FixState) (now : Int)
    (parts : List (List Char))
    (h : (parseGSV s now parts).best_snr ≠ s.best_snr) :
    ∃ v ∈ gsvValues parts, s.best_snr < v := by
  have h2 : [7, 11, 15, 19].foldl (gsvStep parts) s.best_snr ≠ s.best_snr := by
    rw [← parseGSV_best s now parts]
    exact h
  rw [foldl_gsvStep_eq_max] at h2
  have h3 := foldl_max_lt_of_ne _ _ h2
  simpa [gsvValues] using h3

/-! ## Claim theorems for the parser -/

/-- C3: for every input line — in particular every malformed one (empty,
truncated, too few comma-separated fields, non-numeric text) —
`parse_nmea_line` raises no exception (it is total by construction) and
leaves every `FixState` field unchanged except fields explicitly
validated in that same line: a field changes only when the line's tag
matched that field's branch AND that field's own decode succeeded
(`rmcValidated` / `ggaQualityValidated` / `ggaSatsValidated` /
`gsaValidated`, or for `best_snr` a present numeric field exceeding the
old value), and `lastReceiveInstant` is only ever refreshed to the
current instant.  In particular a `$GPGGA` line whose quality field
fails numeric conversion cannot change `fix_quality`. -/
theorem parser_no_corruption (s : FixState) (now : Int) (line : List Char) :
    ((parse_nmea_line s now line).gps_fix_dt ≠ s.gps_fix_dt →
      isRMCtag line = true ∧ rmcValidated (pySplit (pyStrip line)) = true) ∧
    ((parse_nmea_line s now line).fix_quality ≠ s.fix_quality →
      isGGAtag line = true ∧ ggaQualityValidated (pySplit (pyStrip line)) = true) ∧
    ((parse_nmea_line s now line).satellites_used ≠ s.satellites_used →
      isGGAtag line = true ∧ ggaSatsValidated (pySplit (pyStrip line)) = true) ∧
    ((parse_nmea_line s now line).fix_type ≠ s.fix_type →
      isGSAtag line = true ∧ gsaValidated (pySplit (pyStrip line)) = true) ∧
    ((parse_nmea_line s now line).best_snr ≠ s.best_snr →
      isGSVtag line = true ∧
        ∃ v ∈ gsvValues (pySplit (pyStrip line)), s.best_snr < v) ∧
    ((parse_nmea_line s now line).last_gps_receive ≠ s.last_gps_receive →
      (parse_nmea_line s now line).last_gps_receive = some now) := by
  rcases parse_branch_info s now line with h | ⟨ht, h⟩ | ⟨ht, h⟩ | ⟨ht, h⟩ | ⟨ht, h⟩ <;>
    rw [h]
  · exact ⟨fun hc => absurd rfl hc, fun hc => absurd rfl hc, fun hc => absurd rfl hc,
      fun hc => absurd rfl hc, fun hc => absurd rfl hc, fun hc => absurd rfl hc⟩
  · obtain ⟨h1, h2, h3, h4, h5⟩ := parseRMC_frame s now (pySplit (pyStrip line))
    refine ⟨fun hc => ⟨ht, parseRMC_validated_of_changed s now _ hc⟩,
      fun hc => absurd h1 hc, fun hc => absurd h2 hc,
      fun hc => absurd h3 hc, fun hc => absurd h4 hc, fun hc => ?_⟩
    rcases h5 with h5 | h5
    · exact absurd h5 hc
    · exact h5.2
  · obtain ⟨h1, h2, h3, h4⟩ := parseGGA_frame s now (pySplit (pyStrip line))
    refine ⟨fun hc => absurd h1 hc,
      fun hc => ⟨ht, parseGGA_quality_validated_of_changed s now _ hc⟩,
      fun hc => ⟨ht, parseGGA_sats_validated_of_changed s now _ hc⟩,
      fun hc => absurd h2 hc, fun hc => absurd h3 hc, fun hc => ?_⟩
    rcases h4 with h4 | h4
    · exact absurd h4 hc
    · exact h4.2
  · obtain ⟨h1, h2, h3, h4, h5⟩ := parseGSA_frame s now (pySplit (pyStrip line))
    refine ⟨fun hc => absurd h1 hc, fun hc => absurd h2 hc, fun hc => absurd h3 hc,
      fun hc => ⟨ht, parseGSA_validated_of_changed s now _ hc⟩,
      fun hc => absurd h4 hc, fun hc => ?_⟩
    rcases h5 with h5 | h5
    · exact absurd h5 hc
    · exact h5.2
  · obtain ⟨h1, h2, h3, h4, h5⟩ := parseGSV_frame s now (pySplit (pyStrip line))
    refine ⟨fun hc => absurd h1 hc, fun hc => absurd h2 hc, fun hc => absurd h3 hc,
      fun hc => absurd h4 hc,
      fun hc => ⟨ht, parseGSV_lt_of_changed s now _ hc⟩, fun hc => ?_⟩
    rcases h5 with h5 | h5
    · exact absurd h5 hc
    · exact h5.2

/-- Witness for C3: feeding the quality sentence refreshes `last_gps_receive`
to the parse instant (last conjunct of `parser_no_corruption`), and a
`$GPGGA` line whose quality field is the non-numeric `abc` cannot change
`fix_quality` — its quality field never validates, so the theorem's
second conjunct forces the field unchanged. -/
theorem parser_no_corruption_witness :
    (parse_nmea_line initFixState 5 (chars ("$GPGGA,,,,,,2,8"))).last_gps_receive =
      some 5 ∧
    (parse_nmea_line fixSnapW 5 (chars ("$GPGGA,,,,,,abc,8"))).fix_quality =
      fixSnapW.fix_quality := by
  constructor
  · exact (parser_no_corruption initFixState 5 (chars ("$GPGGA,,,,,,2,8"))).2.2.2.2.2
      (by decide)
  · by_contra hc
    exact absurd
      ((parser_no_corruption fixSnapW 5 (chars ("$GPGGA,,,,,,abc,8"))).2.1 hc).2
      (by decide)

/-- C8: across every parsed sentence, `fix_quality > 0` (for quality
sentences, the value just decoded) is the sole gate on refreshing
`last_gps_receive`: whenever a sentence changes `last_gps_receive`, the
resulting state has positive fix quality and the new value is the current
monotonic instant. -/
theorem staleness_gate (s : FixState) (now : Int) (line : List Char)
    (hchange : (parse_nmea_line s now line).last_gps_receive ≠ s.last_gps_receive) :
    0 < (parse_nmea_line s now line).fix_quality ∧
      (parse_nmea_line s now line).last_gps_receive = some now := by
  rcases parse_branch_info s now line with h | ⟨-, h⟩ | ⟨-, h⟩ | ⟨-, h⟩ | ⟨-, h⟩ <;>
    rw [h] at hchange ⊢
  · exact absurd rfl hchange
  · rcases (parseRMC_frame s now (pySplit (pyStrip line))).2.2.2.2 with h5 | h5
    · exact absurd h5 hchange
    · exact h5
  · rcases (parseGGA_frame s now (pySplit (pyStrip line))).2.2.2 with h4 | h4
    · exact absurd h4 hchange
    · exact h4
  · rcases (parseGSA_frame s now (pySplit (pyStrip line))).2.2.2.2 with h5 | h5
    · exact absurd h5 hchange
    · exact h5
  · rcases (parseGSV_frame s now (pySplit (pyStrip line))).2.2.2.2 with h5 | h5
    · exact absurd h5 hchange
    · exact h5

/-- Witness for C8: a quality-2 sentence from the startup state refreshes
`last_gps_receive` and indeed leaves a positive quality behind. -/
theorem staleness_gate_witness :
    0 < (parse_nmea_line initFixState 9 (chars ("$GPGGA,,,,,,2,8"))).fix_quality ∧
      (parse_nmea_line initFixState 9 (chars ("$GPGGA,,,,,,2,8"))).last_gps_receive =
        some 9 :=
  staleness_gate initFixState 9 (chars ("$GPGGA,,,,,,2,8")) (by decide)

/-- C9: `best_snr` is a monotone high-water mark: it never decreases over
any run of parsed lines, and each satellites-in-view sentence sets it to
the maximum of its previous value and every present numeric
signal-strength field (offsets 7, 11, 15, 19). -/
theorem best_snr_high_water :
    (∀ (s : FixState) (now : Int) (lines : List (List Char)),
      s.best_snr ≤ (parseRun s now lines).best_snr) ∧
    (∀ (s : FixState) (now : Int) (line : List Char),
      isGSVtag line = true →
      (parse_nmea_line s now line).best_snr =
        (gsvValues (pySplit (pyStrip line))).foldl max s.best_snr) := by
  constructor
  · exact parseRun_best_snr_le
  · intro s now line h
    rw [parse_of_gsv s now line h, parseGSV_best]
    exact foldl_gsvStep_eq_max _ _ _

/-- Witness for C9: a concrete satellites-in-view sentence with fields 21
and 33 present, evaluated through the theorem's second conjunct. -/
theorem best_snr_high_water_witness :
    (parse_nmea_line initFixState 7 (chars ("$GPGSV,,,,,,,21,,,,33"))).best_snr =
      (gsvValues (pySplit (pyStrip (chars ("$GPGSV,,,,,,,21,,,,33"))))).foldl max
        initFixState.best_snr ∧
    initFixState.best_snr ≤
      (parseRun initFixState 7 [chars ("$GPGSV,,,,,,,21,,,,33"),
        chars ("$GPGSV,,,,,,,5,,,,")]).best_snr :=
  ⟨best_snr_high_water.2 initFixState 7 (chars ("$GPGSV,,,,,,,21,,,,33")) (by decide),
    best_snr_high_water.1 initFixState 7 _⟩

/-- C10: the parser's talker-prefix handling is asymmetric: a line whose
tag matches none of `$GPRMC`, `$GNRMC`, `$GPGGA`, `$GPGSA`, `$GPGSV`
leaves the state unchanged (so `$GNGGA`, `$GNGSA`, `$GNGSV` are ignored),
while `$GNRMC` is treated exactly like `$GPRMC` for every suffix. -/
theorem tag_asymmetry :
    (∀ (s : FixState) (now : Int) (line : List Char),
      isRMCtag line = false → isGGAtag line = false → isGSAtag line = false →
      isGSVtag line = false → parse_nmea_line s now line = s) ∧
    (∀ (s : FixState) (now : Int) (r : List Char),
      parse_nmea_line s now (chars ("$GNRMC") ++ r) =
        parse_nmea_line s now (chars ("$GPRMC") ++ r)) ∧
    (∀ (s : FixState) (now : Int),
      parse_nmea_line s now (chars ("$GNGGA,,,,,,1,05")) = s) := by
  refine ⟨?_, ?_, ?_⟩
  · intro s now line h1 h2 h3 h4
    simp only [isRMCtag] at h1
    simp only [isGGAtag] at h2
    simp only [isGSAtag] at h3
    simp only [isGSVtag] at h4
    simp only [parse_nmea_line]
    rw [h1, h2, h3, h4]
    simp
  · intro s now r
    have e1 : '$' :: chars ("GNRM") ++ ['C'] = chars ("$GNRMC") := by decide
    have e2 : '$' :: chars ("GPRM") ++ ['C'] = chars ("$GPRMC") := by decide
    have hstrip1 := pyStrip_tag_append '$' (chars ("GNRM")) 'C' r (by decide) (by decide)
    have hstrip2 := pyStrip_tag_append '$' (chars ("GPRM")) 'C' r (by decide) (by decide)
    rw [e1] at hstrip1
    rw [e2] at hstrip2
    simp only [parse_nmea_line]
    rw [hstrip1, hstrip2]
    have hne1 : ¬(chars ("$GNRMC") ++ pyRstrip r = []) :=
      List.append_ne_nil_of_left_ne_nil (by decide) _
    have hne2 : ¬(chars ("$GPRMC") ++ pyRstrip r = []) :=
      List.append_ne_nil_of_left_ne_nil (by decide) _
    rw [if_neg hne1, if_neg hne2]
    have hb1 : (startsWithL (chars ("$GPRMC")) (chars ("$GNRMC") ++ pyRstrip r) ||
        startsWithL (chars ("$GNRMC")) (chars ("$GNRMC") ++ pyRstrip r)) = true := rfl
    have hb2 : (startsWithL (chars ("$GPRMC")) (chars ("$GPRMC") ++ pyRstrip r) ||
        startsWithL (chars ("$GNRMC")) (chars ("$GPRMC") ++ pyRstrip r)) = true := rfl
    rw [hb1, hb2]
    simp only [eq_self_iff_true, if_true]
    rw [pySplit_append (chars ("$GNRMC")) (pyRstrip r) (by decide),
        pySplit_append (chars ("$GPRMC")) (pyRstrip r) (by decide)]
    rfl
  · intro s now
    rfl

/-- Witness for C10: a `$GNGSV` line (wrong talker for satellites-in-view)
leaves a nontrivial state untouched. -/
theorem tag_asymmetry_witness :
    parse_nmea_line fixSnapW 3 (chars ("$GNGSV,,,,,,,21")) = fixSnapW :=
  tag_asymmetry.1 fixSnapW 3 (chars ("$GNGSV,,,,,,,21"))
    (by decide) (by decide) (by decide) (by decide)

/-! ## Branch equations for the time-update step -/

lemma timeUpdate_gps_eq (fix : FixState) (a : ArbState) (t1 t2 t3 : Int)
    (ntp : Option (Int × String)) (sysNow : Int) (d g : Int)
    (hgps : haveGpsOf fix t2 = true) (hd : a.display_time = some d)
    (hg : fix.gps_fix_dt = some g) :
    timeUpdateStep fix a t1 t2 t3 ntp sysNow =
      some ({ display_time := some (if d + snapThreshold < g then g
                else d + (t1 - a.last_monotonic))
              last_monotonic := t1
              last_ntp_query := a.last_ntp_query
              last_ntp_server_used := a.last_ntp_server_used
              last_time_source := gpsLabel fix }, false) := by
  simp only [timeUpdateStep, hgps, hg, hd, if_true]
  split <;> rfl

lemma timeUpdate_success_eq (fix : FixState) (a : ArbState) (t1 t2 t3 ndt : Int)
    (srv : String) (sysNow : Int)
    (hgps : haveGpsOf fix t2 = false)
    (htrig : (decide (NTP_CHECK_INTERVAL < t3 - a.last_ntp_query) ||
      a.last_ntp_server_used.isNone) = true) :
    timeUpdateStep fix a t1 t2 t3 (some (ndt, srv)) sysNow =
      some ({ display_time := some (ndt + utcOffset)
              last_monotonic := t1
              last_ntp_query := t3
              last_ntp_server_used := some srv
              last_time_source := ntpLabelOf srv }, true) := by
  simp only [timeUpdateStep, hgps, Bool.false_eq_true, if_false, htrig, if_true]

lemma timeUpdate_fail_eq (fix : FixState) (a : ArbState) (t1 t2 t3 sysNow d : Int)
    (hgps : haveGpsOf fix t2 = false)
    (htrig : (decide (NTP_CHECK_INTERVAL < t3 - a.last_ntp_query) ||
      a.last_ntp_server_used.isNone) = true)
    (hd : a.display_time = some d) :
    timeUpdateStep fix a t1 t2 t3 none sysNow =
      some ({ display_time := some (d + (t1 - a.last_monotonic))
              last_monotonic := t1
              last_ntp_query := t3
              last_ntp_server_used := a.last_ntp_server_used
              last_time_source := offlineLabel }, true) := by
  simp only [timeUpdateStep, hgps, Bool.false_eq_true, if_false, htrig, if_true, hd]

lemma timeUpdate_throttled_eq (fix : FixState) (a : ArbState) (t1 t2 t3 : Int)
    (ntp : Option (Int × String)) (sysNow d : Int)
    (hgps : haveGpsOf fix t2 = false)
    (htrig : (decide (NTP_CHECK_INTERVAL < t3 - a.last_ntp_query) ||
      a.last_ntp_server_used.isNone) = false)
    (hd : a.display_time = some d) :
    timeUpdateStep fix a t1 t2 t3 ntp sysNow =
      some ({ display_time := some (d + (t1 - a.last_monotonic))
              last_monotonic := t1
              last_ntp_query := a.last_ntp_query
              last_ntp_server_used := a.last_ntp_server_used
              last_time_source := a.last_time_source }, false) := by
  simp only [timeUpdateStep, hgps, Bool.false_eq_true, if_false, htrig, hd]

/-! ## Claim theorems for the arbiter and boundary watcher -/

/-- C1: on every tick where GPS is usable and the display is already
defined, the arbiter snaps the display to the satellite time exactly when
that time is more than 1.5 s ahead of the display, and otherwise glides
by the monotonic elapsed interval, ignoring any sub-1.5 s satellite
delta. -/
theorem snap_glide_rule (fix : FixState) (a : ArbState) (t1 t2 t3 : Int)
    (ntp : Option (Int × String)) (sysNow : Int) (d g : Int)
    (hgps : haveGpsOf fix t2 = true) (hd : a.display_time = some d)
    (hg : fix.gps_fix_dt = some g) :
    timeUpdateStep fix a t1 t2 t3 ntp sysNow =
      some ({ display_time := some (if d + snapThreshold < g then g
                else d + (t1 - a.last_monotonic))
              last_monotonic := t1
              last_ntp_query := a.last_ntp_query
              last_ntp_server_used := a.last_ntp_server_used
              last_time_source := gpsLabel fix }, false) :=
  timeUpdate_gps_eq fix a t1 t2 t3 ntp sysNow d g hgps hd hg

/-- Witness for C1: with display `T = 0` and elapsed 1 s, a satellite
time of `T + 2 s` snaps to exactly `T + 2 s`, and a satellite time of
`T + 0.5 s` glides to `T + 1 s`. -/
theorem snap_glide_rule_witness :
    timeUpdateStep fixSnapW arbW oneSecond oneSecond oneSecond none 0 =
      some ({ display_time := some (2 * oneSecond)
              last_monotonic := oneSecond
              last_ntp_query := 0
              last_ntp_server_used := none
              last_time_source := gpsLabel fixSnapW }, false) ∧
    timeUpdateStep fixGlideW arbW oneSecond oneSecond oneSecond none 0 =
      some ({ display_time := some oneSecond
              last_monotonic := oneSecond
              last_ntp_query := 0
              last_ntp_server_used := none
              last_time_source := gpsLabel fixGlideW }, false) := by
  constructor
  · have h := snap_glide_rule fixSnapW arbW oneSecond oneSecond oneSecond none 0 0
      (2 * oneSecond) (by decide) rfl rfl
    rw [h]
    decide
  · have h := snap_glide_rule fixGlideW arbW oneSecond oneSecond oneSecond none 0 0
      500000 (by decide) rfl rfl
    rw [h]
    decide

/-- C2 counterexample: at `last_gps_receive = 0.0` (a legal
`time.monotonic` reading) the claim's formula trusts GPS 5 s later, but
line 262's truthiness test (`if last_gps_receive`) treats `0.0` like
`None` and uses the `1e9` sentinel, so the code reports no GPS. -/
theorem haveGps_claim_counterexample :
    haveGpsClaim fixZeroRecv (5 * oneSecond) = true ∧
    haveGpsOf fixZeroRecv (5 * oneSecond) = false := by decide

/-- C2 (amended): `have_gps` holds exactly when a fix time is present,
the fix quality is positive and the satellite age is under 10 s, where
the age uses the `1e9` sentinel when `last_gps_receive` is absent *or
equal to `0.0`* (Python falsiness); consequently, when every recorded
receive instant is at least 10 s old, `have_gps` is false even with a fix
time present. -/
theorem haveGps_decision (fix : FixState) (t2 : Int) :
    (haveGpsOf fix t2 = true ↔
      fix.gps_fix_dt.isSome = true ∧ 0 < fix.fix_quality ∧
        gpsAgeOf fix t2 < 10 * oneSecond) ∧
    ((∀ r, fix.last_gps_receive = some r → 10 * oneSecond ≤ t2 - r) →
      haveGpsOf fix t2 = false) := by
  constructor
  · simp [haveGpsOf, Bool.and_eq_true, decide_eq_true_eq, and_assoc]
  · intro hstale
    have hage : ¬(gpsAgeOf fix t2 < 10 * oneSecond) := by
      unfold gpsAgeOf
      cases hr : fix.last_gps_receive with
      | none =>
        show ¬(staleSentinel < 10 * oneSecond)
        decide
      | some r =>
        show ¬((if r = 0 then staleSentinel else t2 - r) < 10 * oneSecond)
        by_cases hz : r = 0
        · rw [if_pos hz]
          decide
        · rw [if_neg hz]
          have := hstale r hr
          omega
    unfold haveGpsOf
    rw [decide_eq_false hage, Bool.and_false]

/-- Witness for C2 (amended): from the startup fix state (no sentence
ever received), GPS is untrusted at `t = 11 s`. -/
theorem haveGps_decision_witness :
    haveGpsOf initFixState (11 * oneSecond) = false :=
  (haveGps_decision initFixState (11 * oneSecond)).2
    (fun _ hr => Option.noConfusion hr)

/-- C5 counterexample: with every query pass failing,
`last_ntp_server_used` stays `None`, and that clause of line 276
re-triggers a query pass on a tick only 5 s after the previous one — two
ticks 5 s apart trigger two query passes. -/
theorem ntp_throttle_counterexample :
    timeUpdateStep initFixState aThr (100 * oneSecond) (100 * oneSecond)
        (100 * oneSecond) none 0 = some (aThr1, true) ∧
    timeUpdateStep initFixState aThr1 (105 * oneSecond) (105 * oneSecond)
        (105 * oneSecond) none 0 = some (aThr2, true) ∧
    105 * oneSecond - 100 * oneSecond = 5 * oneSecond := by
  refine ⟨by decide, by decide, by decide⟩

/-- C6 counterexample: a successful network query assigns the response
time unconditionally; with a display far ahead of the response, the new
display is strictly smaller than the old — the network branch, not the
snap rule, breaks monotonicity. -/
theorem display_monotone_counterexample :
    timeUpdateStep initFixState arbBack oneSecond oneSecond oneSecond
        (some (0, "pool.ntp.org")) 0 =
      some ({ display_time := some (-18000000000)
              last_monotonic := oneSecond
              last_ntp_query := oneSecond
              last_ntp_server_used := some ("pool.ntp.org")
              last_time_source := ntpLabelOf ("pool.ntp.org") }, true) ∧
    arbBack.display_time = some 1000000000000 ∧
    (-18000000000 : Int) < 1000000000000 := by
  refine ⟨by decide, by decide, by decide⟩

/-- C7 (code bug): the alarm marker `last_alarm_triggered` is assigned at
line 334 but never reset anywhere in the program, so the gate never
re-arms: the alarm fires at the first 07:00:00 occurrence, and at the
next day's 07:00:00 — same displayed hour, minute and second 0 — it does
not fire, even though the hour chime (whose gate does reset, line 323-325)
fires again on that very tick. -/
theorem alarm_never_rearms :
    c7run1.alarmFired = true ∧
    c7run1.st.last_alarm_triggered = some (7, 0) ∧
    c7run2.alarmFired = false ∧
    c7run2.st.last_alarm_triggered = some (7, 0) ∧
    c7run3.alarmFired = false ∧
    c7run3.hourChimed = true ∧
    hourOf (dtUs 2024 1 2 7 0 0) = 7 ∧ minuteOf (dtUs 2024 1 2 7 0 0) = 0 ∧
    secondOf (dtUs 2024 1 2 7 0 0) = 0 := by decide

/-- C5 (amended): the 30 s throttle holds only once a query pass has
succeeded: after a tick whose query pass succeeds (recording the server),
a second tick within 30 s does not query again (it glides); and any tick
with GPS unavailable occurring more than 30 s after the last recorded
query (e.g. 31 s) triggers exactly one new query pass.  When every pass
fails, the `last_ntp_server_used is None` clause of line 276 re-triggers
a query on every tick regardless of the 30 s window. -/
theorem ntp_throttle_amended :
    (∀ (fix : FixState) (a : ArbState) (t u ndt : Int) (srv : String)
        (ntp2 : Option (Int × String)) (sys1 sys2 : Int),
      haveGpsOf fix t = false → haveGpsOf fix u = false →
      (decide (NTP_CHECK_INTERVAL < t - a.last_ntp_query) ||
        a.last_ntp_server_used.isNone) = true →
      u - t ≤ NTP_CHECK_INTERVAL →
      timeUpdateStep fix a t t t (some (ndt, srv)) sys1 =
        some ({ display_time := some (ndt + utcOffset)
                last_monotonic := t
                last_ntp_query := t
                last_ntp_server_used := some srv
                last_time_source := ntpLabelOf srv }, true) ∧
      timeUpdateStep fix
        { display_time := some (ndt + utcOffset)
          last_monotonic := t
          last_ntp_query := t
          last_ntp_server_used := some srv
          last_time_source := ntpLabelOf srv } u u u ntp2 sys2 =
        some ({ display_time := some (ndt + utcOffset + (u - t))
                last_monotonic := u
                last_ntp_query := t
                last_ntp_server_used := some srv
                last_time_source := ntpLabelOf srv }, false)) ∧
    (∀ (fix : FixState) (a : ArbState) (v : Int) (ntp : Option (Int × String))
        (sys : Int),
      haveGpsOf fix v = false →
      NTP_CHECK_INTERVAL < v - a.last_ntp_query →
      (timeUpdateStep fix a v v v ntp sys).map Prod.snd = some true) := by
  constructor
  · intro fix a t u ndt srv ntp2 sys1 sys2 hg1 hg2 htrig hgap
    constructor
    · simp only [timeUpdateStep, hg1, Bool.false_eq_true, if_false, htrig, if_true]
    · have hcond : (decide (NTP_CHECK_INTERVAL < u - t) || (some srv).isNone) = false := by
        simp [not_lt.mpr hgap]
      simp only [timeUpdateStep, hg2, Bool.false_eq_true, if_false]
      rw [hcond]
      simp only [Bool.false_eq_true, if_false]
  · intro fix a v ntp sys hg ht
    have hcond : (decide (NTP_CHECK_INTERVAL < v - a.last_ntp_query) ||
        a.last_ntp_server_used.isNone) = true := by
      simp [ht]
    simp only [timeUpdateStep, hg, Bool.false_eq_true, if_false, hcond, if_true]
    cases ntp with
    | some p => rfl
    | none =>
      cases a.display_time with
      | none => rfl
      | some d => rfl

/-- Witness for C5 (amended): a successful pass at 100 s throttles the
tick at 105 s; a tick 31 s after a query at 100 s queries again. -/
theorem ntp_throttle_amended_witness :
    timeUpdateStep initFixState aThr (100 * oneSecond) (100 * oneSecond)
        (100 * oneSecond) (some (0, "a")) 0 =
      some ({ display_time := some (0 + utcOffset)
              last_monotonic := 100 * oneSecond
              last_ntp_query := 100 * oneSecond
              last_ntp_server_used := some ("a")
              last_time_source := ntpLabelOf ("a") }, true) ∧
    timeUpdateStep initFixState
      { display_time := some (0 + utcOffset)
        last_monotonic := 100 * oneSecond
        last_ntp_query := 100 * oneSecond
        last_ntp_server_used := some ("a")
        last_time_source := ntpLabelOf ("a") } (105 * oneSecond) (105 * oneSecond)
        (105 * oneSecond) none 0 =
      some ({ display_time := some (0 + utcOffset + (105 * oneSecond - 100 * oneSecond))
              last_monotonic := 105 * oneSecond
              last_ntp_query := 100 * oneSecond
              last_ntp_server_used := some ("a")
              last_time_source := ntpLabelOf ("a") }, false) ∧
    (timeUpdateStep initFixState aThr1 (131 * oneSecond) (131 * oneSecond)
        (131 * oneSecond) none 0).map Prod.snd = some true := by
  have h1 := ntp_throttle_amended.1 initFixState aThr (100 * oneSecond)
    (105 * oneSecond) 0 "a" none 0 0 (by decide) (by decide) (by decide) (by decide)
  have h2 := ntp_throttle_amended.2 initFixState aThr1 (131 * oneSecond) none 0
    (by decide) (by decide)
  exact ⟨h1.1, h1.2, h2⟩

/-- C6 (amended): with a nondecreasing monotonic clock, the displayed
time never decreases from one tick to the next, except through the
network-success assignment (`display_time = ntp_dt_utc + offset`, line
280), which can move it in either direction; the GPS snap fires only when
the satellite time is ahead and so itself moves the display forward. -/
theorem display_monotone_amended (fix : FixState) (a : ArbState) (t1 t2 t3 : Int)
    (ntp : Option (Int × String)) (sysNow : Int) (a2 : ArbState) (q : Bool)
    (d d2 : Int)
    (hmono : a.last_monotonic ≤ t1)
    (hd : a.display_time = some d)
    (hstep : timeUpdateStep fix a t1 t2 t3 ntp sysNow = some (a2, q))
    (hd2 : a2.display_time = some d2) :
    d ≤ d2 ∨ (haveGpsOf fix t2 = false ∧ q = true ∧
      ∃ ndt srv, ntp = some (ndt, srv) ∧ d2 = ndt + utcOffset) := by
  by_cases hgps : haveGpsOf fix t2 = true
  · cases hgfix : fix.gps_fix_dt with
    | none => exact absurd hgps (by simp [haveGpsOf, hgfix])
    | some g =>
      rw [timeUpdate_gps_eq fix a t1 t2 t3 ntp sysNow d g hgps hd hgfix] at hstep
      simp only [Option.some.injEq, Prod.mk.injEq] at hstep
      obtain ⟨ha2, -⟩ := hstep
      rw [← ha2] at hd2
      simp only [Option.some.injEq] at hd2
      left
      by_cases hsnap : d + snapThreshold < g
      · rw [if_pos hsnap] at hd2
        have hth : snapThreshold = 1500000 := rfl
        omega
      · rw [if_neg hsnap] at hd2
        omega
  · have hgps2 : haveGpsOf fix t2 = false := by
      simpa using hgps
    by_cases htrig : (decide (NTP_CHECK_INTERVAL < t3 - a.last_ntp_query) ||
        a.last_ntp_server_used.isNone) = true
    · cases hntp : ntp with
      | some p =>
        obtain ⟨ndt, srv⟩ := p
        rw [hntp] at hstep
        rw [timeUpdate_success_eq fix a t1 t2 t3 ndt srv sysNow hgps2 htrig] at hstep
        simp only [Option.some.injEq, Prod.mk.injEq] at hstep
        obtain ⟨ha2, hq⟩ := hstep
        rw [← ha2] at hd2
        simp only [Option.some.injEq] at hd2
        right
        exact ⟨hgps2, hq.symm, ndt, srv, rfl, hd2.symm⟩
      | none =>
        rw [hntp] at hstep
        rw [timeUpdate_fail_eq fix a t1 t2 t3 sysNow d hgps2 htrig hd] at hstep
        simp only [Option.some.injEq, Prod.mk.injEq] at hstep
        obtain ⟨ha2, -⟩ := hstep
        rw [← ha2] at hd2
        simp only [Option.some.injEq] at hd2
        left
        omega
    · have htrig2 : (decide (NTP_CHECK_INTERVAL < t3 - a.last_ntp_query) ||
          a.last_ntp_server_used.isNone) = false := by
        simpa only [Bool.not_eq_true] using htrig
      rw [timeUpdate_throttled_eq fix a t1 t2 t3 ntp sysNow d hgps2 htrig2 hd] at hstep
      simp only [Option.some.injEq, Prod.mk.injEq] at hstep
      obtain ⟨ha2, -⟩ := hstep
      rw [← ha2] at hd2
      simp only [Option.some.injEq] at hd2
      left
      omega

/-- Witness for C6 (amended): a throttled offline tick glides forward by
the 1 s elapsed interval, never backward. -/
theorem display_monotone_amended_witness :
    (0 : Int) ≤ 5 * oneSecond ∨ (haveGpsOf initFixState (105 * oneSecond) = false ∧
      (true : Bool) = true ∧
      ∃ ndt srv, (none : Option (Int × String)) = some (ndt, srv) ∧
        5 * oneSecond = ndt + utcOffset) :=
  display_monotone_amended initFixState aThr1 (105 * oneSecond) (105 * oneSecond)
    (105 * oneSecond) none 0 aThr2 true 0 (5 * oneSecond)
    (by decide) (by decide) (by decide) (by decide)

/-- C4 counterexample: from startup, feeding only the valid class-A
sentence leaves `fix_quality = 0`, so the next tick has no usable GPS:
the status label is the offline label (query pass included and failing),
not a `GPS:` label, and the display glides from the startup system time
instead of showing 2024-01-01T07:00:00. -/
theorem e2e_counterexample :
    fixC4.gps_fix_dt = some (dtUs 2024 1 1 7 0 0) ∧
    fixC4.fix_quality = 0 ∧
    haveGpsOf fixC4 (101 * oneSecond) = false ∧
    timeUpdateStep fixC4 (initArbState 0 (100 * oneSecond)) (101 * oneSecond)
        (101 * oneSecond) (101 * oneSecond) none 0 =
      some ({ display_time := some oneSecond
              last_monotonic := 101 * oneSecond
              last_ntp_query := 101 * oneSecond
              last_ntp_server_used := none
              last_time_source := offlineLabel }, true) ∧
    startsWithL (chars ("GPS:")) (chars (offlineLabel)) = false ∧
    (oneSecond : Int) ≠ dtUs 2024 1 1 7 0 0 := by
  refine ⟨by decide, by decide, by decide, by decide, by decide, by decide⟩

/-- C4 (amended): once the class-A sentence AND a fix-quality sentence
with quality > 0 have been fed (so `have_gps` holds on the next tick),
and provided the startup display lies more than 1.5 s before the decoded
local time, the next tick snaps: the status label starts with `GPS:` and
the display equals 2024-01-01T07:00:00 local. -/
theorem e2e_amended (d0 sysNow : Int)
    (hbehind : d0 + snapThreshold < dtUs 2024 1 1 7 0 0) :
    timeUpdateStep fixC4b (initArbState d0 (100 * oneSecond)) (101 * oneSecond)
        (101 * oneSecond) (101 * oneSecond) none sysNow =
      some ({ display_time := some (dtUs 2024 1 1 7 0 0)
              last_monotonic := 101 * oneSecond
              last_ntp_query := 0
              last_ntp_server_used := none
              last_time_source := gpsLabel fixC4b }, false) ∧
    startsWithL (chars ("GPS:")) (chars (gpsLabel fixC4b)) = true := by
  constructor
  · have h := timeUpdate_gps_eq fixC4b (initArbState d0 (100 * oneSecond))
      (101 * oneSecond) (101 * oneSecond) (101 * oneSecond) none sysNow d0
      (dtUs 2024 1 1 7 0 0) (by decide) rfl (by decide)
    rw [h, if_pos hbehind]
    rfl
  · decide

/-- Witness for C4 (amended): startup display at the epoch (well behind
2024), both sentences fed, the tick snaps to 07:00:00 local. -/
theorem e2e_amended_witness :
    timeUpdateStep fixC4b (initArbState 0 (100 * oneSecond)) (101 * oneSecond)
        (101 * oneSecond) (101 * oneSecond) none 0 =
      some ({ display_time := some (dtUs 2024 1 1 7 0 0)
              last_monotonic := 101 * oneSecond
              last_ntp_query := 0
              last_ntp_server_used := none
              last_time_source := gpsLabel fixC4b }, false) ∧
    startsWithL (chars ("GPS:")) (chars (gpsLabel fixC4b)) = true :=
  e2e_amended 0 0 (by decide)
